import Mathlib

/-!
Shallow embedding of the `ha_inkposter` Home Assistant integration
(files `custom_components/ha_inkposter/{const,ble,api_client}.py`) and
proofs about it.

Conventions used throughout:
* Python `bytes` values are modelled as `List Nat`, one entry per byte.
* Python `str` values that matter byte-wise are modelled as `List Nat`
  of Unicode code points; `bytes.decode("utf-8", errors="replace")` is
  modelled by the total function `utf8DecodeReplace` below.
* Python machine arithmetic (`struct.unpack`, `&`, `>>`) is translated
  to `Nat` arithmetic with explicit `% 2^w`, `/`, `%` and `&&&`.
* `async` functions performing I/O are modelled as pure functions over
  oracles that supply the results of each I/O interaction, returning an
  explicit trace of the interactions performed.
-/

/-! ## Constants from `const.py` -/

def REFRESH_BUFFER_SECS : Int := 60 * 60

def POLL_INTERVAL_SECS : Nat := 2

def POLL_TIMEOUT_SECS : Nat := 120

def BLE_HEADER_SHORT : Nat := 0x01

/-- `BLE_DEFAULT_SKEY_HEX = "b716c1d9807b857fcb26f26fab215c6b"` decoded by
`bytes.fromhex` into its 16 key bytes. -/
def BLE_DEFAULT_SKEY : List Nat :=
  [0xb7, 0x16, 0xc1, 0xd9, 0x80, 0x7b, 0x85, 0x7f,
   0xcb, 0x26, 0xf2, 0x6f, 0xab, 0x21, 0x5c, 0x6b]

def BLE_STATUS_LEN : Nat := 28

def STATUS_FLAG_GENERAL_ERROR : Nat := 0x00000001
def STATUS_FLAG_BATTERY_LOW : Nat := 0x00000002
def STATUS_FLAG_BATTERY_CHARGING : Nat := 0x00000004
def STATUS_FLAG_BATTERY_CHARGING_LOW : Nat := 0x00000008
def STATUS_FLAG_BATTERY_FULL : Nat := 0x00000010
def STATUS_FLAG_SECURE_MODE : Nat := 0x00000040
def STATUS_FLAG_USER_INTERACTION_REQUIRED : Nat := 0x00000080
def STATUS_FLAG_WIFI_CONNECTION_ERROR : Nat := 0x00000100
def STATUS_FLAG_WIFI_LINK_OK : Nat := 0x00000200
def STATUS_FLAG_SERVER_CONNECTION_ERROR : Nat := 0x00000400
def STATUS_FLAG_SERVER_SOCKET_LINK_OK : Nat := 0x00000800
def STATUS_FLAG_SYNC_ERROR : Nat := 0x00001000
def STATUS_FLAG_FW_UPDATE_ERROR : Nat := 0x00002000
def STATUS_FLAG_FW_UPDATE_READY : Nat := 0x00010000
def STATUS_FLAG_LAUNCHER_CMD_READY : Nat := 0x00020000
def STATUS_FLAG_DATETIME_SYNCED : Nat := 0x00040000

/-- The sixteen defined status-bit masks, in the order of `const.py`. -/
def STATUS_FLAG_MASKS : List Nat :=
  [STATUS_FLAG_GENERAL_ERROR, STATUS_FLAG_BATTERY_LOW,
   STATUS_FLAG_BATTERY_CHARGING, STATUS_FLAG_BATTERY_CHARGING_LOW,
   STATUS_FLAG_BATTERY_FULL, STATUS_FLAG_SECURE_MODE,
   STATUS_FLAG_USER_INTERACTION_REQUIRED, STATUS_FLAG_WIFI_CONNECTION_ERROR,
   STATUS_FLAG_WIFI_LINK_OK, STATUS_FLAG_SERVER_CONNECTION_ERROR,
   STATUS_FLAG_SERVER_SOCKET_LINK_OK, STATUS_FLAG_SYNC_ERROR,
   STATUS_FLAG_FW_UPDATE_ERROR, STATUS_FLAG_FW_UPDATE_READY,
   STATUS_FLAG_LAUNCHER_CMD_READY, STATUS_FLAG_DATETIME_SYNCED]

/-! ## `ble.py`: status flags -/

/-- `BleStatusFlags` from `ble.py`: boolean flags decoded from the status
bitmask. -/
structure BleStatusFlags where
  general_error : Bool
  battery_low : Bool
  battery_charging : Bool
  battery_charging_low : Bool
  battery_full : Bool
  secure_mode : Bool
  user_interaction_required : Bool
  wifi_connection_error : Bool
  wifi_link_ok : Bool
  server_connection_error : Bool
  server_socket_link_ok : Bool
  sync_error : Bool
  fw_update_error : Bool
  fw_update_ready : Bool
  launcher_cmd_ready : Bool
  datetime_synced : Bool
deriving DecidableEq, Repr

/-- `parse_status_flags` from `ble.py`: each flag is
`(status_original & mask) != 0`. -/
def parse_status_flags (status_original : Nat) : BleStatusFlags :=
  { general_error := status_original &&& STATUS_FLAG_GENERAL_ERROR != 0
    battery_low := status_original &&& STATUS_FLAG_BATTERY_LOW != 0
    battery_charging := status_original &&& STATUS_FLAG_BATTERY_CHARGING != 0
    battery_charging_low := status_original &&& STATUS_FLAG_BATTERY_CHARGING_LOW != 0
    battery_full := status_original &&& STATUS_FLAG_BATTERY_FULL != 0
    secure_mode := status_original &&& STATUS_FLAG_SECURE_MODE != 0
    user_interaction_required := status_original &&& STATUS_FLAG_USER_INTERACTION_REQUIRED != 0
    wifi_connection_error := status_original &&& STATUS_FLAG_WIFI_CONNECTION_ERROR != 0
    wifi_link_ok := status_original &&& STATUS_FLAG_WIFI_LINK_OK != 0
    server_connection_error := status_original &&& STATUS_FLAG_SERVER_CONNECTION_ERROR != 0
    server_socket_link_ok := status_original &&& STATUS_FLAG_SERVER_SOCKET_LINK_OK != 0
    sync_error := status_original &&& STATUS_FLAG_SYNC_ERROR != 0
    fw_update_error := status_original &&& STATUS_FLAG_FW_UPDATE_ERROR != 0
    fw_update_ready := status_original &&& STATUS_FLAG_FW_UPDATE_READY != 0
    launcher_cmd_ready := status_original &&& STATUS_FLAG_LAUNCHER_CMD_READY != 0
    datetime_synced := status_original &&& STATUS_FLAG_DATETIME_SYNCED != 0 }

/-! ## UTF-8 model

`decode_status` calls `bytes.decode("utf-8", errors="replace")`, which is
total: invalid byte sequences turn into the replacement character U+FFFD
instead of raising.  We model a Python `str` as its list of Unicode code
points and model that decoder with `utf8DecodeReplace`.  On invalid input
it substitutes U+FFFD for each maximal invalid subpart; on valid UTF-8 it
decodes exactly. -/

/-- Is `b` a UTF-8 continuation byte (`0x80..0xBF`)? -/
def utf8Cont (b : Nat) : Bool := decide (0x80 ≤ b ∧ b < 0xC0)

/-- Valid range for the second byte of a multi-byte sequence with lead
byte `b1` (tighter for `E0`, `ED`, `F0`, `F4`, ruling out overlong forms,
surrogates and code points above U+10FFFF). -/
def utf8Cont2 (b1 b2 : Nat) : Bool :=
  if b1 = 0xE0 then decide (0xA0 ≤ b2 ∧ b2 < 0xC0)
  else if b1 = 0xED then decide (0x80 ≤ b2 ∧ b2 < 0xA0)
  else if b1 = 0xF0 then decide (0x90 ≤ b2 ∧ b2 < 0xC0)
  else if b1 = 0xF4 then decide (0x80 ≤ b2 ∧ b2 < 0x90)
  else utf8Cont b2

/-- Code point of a two-byte UTF-8 sequence. -/
def utf8Val2 (b1 b2 : Nat) : Nat := (b1 - 0xC0) * 0x40 + (b2 - 0x80)

/-- Code point of a three-byte UTF-8 sequence. -/
def utf8Val3 (b1 b2 b3 : Nat) : Nat :=
  (b1 - 0xE0) * 0x1000 + (b2 - 0x80) * 0x40 + (b3 - 0x80)

/-- Code point of a four-byte UTF-8 sequence. -/
def utf8Val4 (b1 b2 b3 b4 : Nat) : Nat :=
  (b1 - 0xF0) * 0x40000 + (b2 - 0x80) * 0x1000 + (b3 - 0x80) * 0x40 + (b4 - 0x80)

/-- Total UTF-8 decoder with U+FFFD replacement, modelling Python
`bytes.decode("utf-8", errors="replace")`. -/
def utf8DecodeReplace : List Nat → List Nat
  | [] => []
  | b1 :: rest =>
    if b1 < 0x80 then b1 :: utf8DecodeReplace rest
    else if b1 < 0xC2 then 0xFFFD :: utf8DecodeReplace rest
    else if b1 < 0xE0 then
      match rest with
      | [] => [0xFFFD]
      | b2 :: rest2 =>
        if utf8Cont b2 then utf8Val2 b1 b2 :: utf8DecodeReplace rest2
        else 0xFFFD :: utf8DecodeReplace (b2 :: rest2)
    else if b1 < 0xF0 then
      match rest with
      | [] => [0xFFFD]
      | b2 :: rest2 =>
        if utf8Cont2 b1 b2 then
          match rest2 with
          | [] => [0xFFFD]
          | b3 :: rest3 =>
            if utf8Cont b3 then utf8Val3 b1 b2 b3 :: utf8DecodeReplace rest3
            else 0xFFFD :: utf8DecodeReplace (b3 :: rest3)
        else 0xFFFD :: utf8DecodeReplace (b2 :: rest2)
    else if b1 < 0xF5 then
      match rest with
      | [] => [0xFFFD]
      | b2 :: rest2 =>
        if utf8Cont2 b1 b2 then
          match rest2 with
          | [] => [0xFFFD]
          | b3 :: rest3 =>
            if utf8Cont b3 then
              match rest3 with
              | [] => [0xFFFD]
              | b4 :: rest4 =>
                if utf8Cont b4 then utf8Val4 b1 b2 b3 b4 :: utf8DecodeReplace rest4
                else 0xFFFD :: utf8DecodeReplace (b4 :: rest4)
            else 0xFFFD :: utf8DecodeReplace (b3 :: rest3)
        else 0xFFFD :: utf8DecodeReplace (b2 :: rest2)
    else 0xFFFD :: utf8DecodeReplace rest

/-- UTF-8 encoding of one Unicode code point (the inverse direction,
used to state the round-trip property and to model Python
`str.encode("utf-8")`). -/
def utf8EncodeChar (c : Nat) : List Nat :=
  if c < 0x80 then [c]
  else if c < 0x800 then [0xC0 + c / 0x40, 0x80 + c % 0x40]
  else if c < 0x10000 then
    [0xE0 + c / 0x1000, 0x80 + c / 0x40 % 0x40, 0x80 + c % 0x40]
  else
    [0xF0 + c / 0x40000, 0x80 + c / 0x1000 % 0x40, 0x80 + c / 0x40 % 0x40,
     0x80 + c % 0x40]

/-- UTF-8 encoding of a list of code points. -/
def utf8Encode (cps : List Nat) : List Nat := (cps.map utf8EncodeChar).flatten

/-- A Unicode scalar value: in range and not a surrogate. -/
def UnicodeScalar (c : Nat) : Prop := c < 0x110000 ∧ ¬(0xD800 ≤ c ∧ c < 0xE000)

instance (c : Nat) : Decidable (UnicodeScalar c) := by
  unfold UnicodeScalar; infer_instance

/-! ## `ble.py`: status decoding -/

/-- Decoded 28-byte BLE status payload (`BleStatusDecoded` in `ble.py`).
`model_str` is the Python `str`, represented as its code points. -/
structure BleStatusDecoded where
  company_id : Nat
  msg_seq : Nat
  version : Nat
  capacity : Nat
  wifi_quality : Nat
  key_seq : Nat
  status_original : Nat
  jobs : Nat
  fw_major : Nat
  fw_minor : Nat
  fw_build : Nat
  model_str : List Nat
deriving DecidableEq, Repr

/-- Error raised by the codec; the spec calls the short-payload error
`MalformedFrame` (the source raises `ValueError`). -/
inductive BleError where
  | malformedFrame
deriving DecidableEq, Repr

/-- `struct.unpack_from("<H", raw, off)`: little-endian 16-bit read. -/
def le16 (raw : List Nat) (off : Nat) : Nat :=
  raw.getD off 0 + 0x100 * raw.getD (off + 1) 0

/-- `struct.unpack_from("<I", raw, off)`: little-endian 32-bit read. -/
def le32 (raw : List Nat) (off : Nat) : Nat :=
  raw.getD off 0 + 0x100 * raw.getD (off + 1) 0 + 0x10000 * raw.getD (off + 2) 0 +
    0x1000000 * raw.getD (off + 3) 0

/-- `decode_status` from `ble.py`.  Raising `ValueError` on a short
payload is modelled as `Except.error`.  `raw[20:28].split(b"\x00", 1)[0]`
is the prefix of the 8-byte model field before the first NUL byte, i.e.
`takeWhile (b != 0)`; `(fw_packed >> 24) & 0xFF` and friends are written
as `/` and `% 0x100`. -/
def decode_status (raw : List Nat) : Except BleError BleStatusDecoded :=
  if raw.length < BLE_STATUS_LEN then .error .malformedFrame
  else
    let fw_packed := le32 raw 16
    .ok
      { company_id := le16 raw 0
        msg_seq := le16 raw 2
        version := raw.getD 4 0
        capacity := raw.getD 5 0
        wifi_quality := raw.getD 6 0
        key_seq := raw.getD 7 0
        status_original := le32 raw 8
        jobs := le32 raw 12
        fw_major := fw_packed / 0x1000000 % 0x100
        fw_minor := fw_packed / 0x10000 % 0x100
        fw_build := fw_packed % 0x10000
        model_str :=
          utf8DecodeReplace (((raw.drop 20).take 8).takeWhile (fun b => b != 0)) }

/-- Little-endian 16-bit encoding (spec side, for the round-trip claim). -/
def u16le (n : Nat) : List Nat := [n % 0x100, n / 0x100 % 0x100]

/-- Little-endian 32-bit encoding (spec side, for the round-trip claim). -/
def u32le (n : Nat) : List Nat :=
  [n % 0x100, n / 0x100 % 0x100, n / 0x10000 % 0x100, n / 0x1000000 % 0x100]

/-- Modelled from the spec: the 28-byte little-endian wire layout of a
`DeviceStatusFrame` (the encoder is not in the repository; the spec
defines the layout in its data model and round-trip property).  The
model field is the UTF-8 bytes of `model_str`, NUL-padded to 8 bytes. -/
def encode_status (f : BleStatusDecoded) : List Nat :=
  u16le f.company_id ++ u16le f.msg_seq ++
    [f.version % 0x100, f.capacity % 0x100, f.wifi_quality % 0x100, f.key_seq % 0x100] ++
    u32le f.status_original ++ u32le f.jobs ++
    u32le (f.fw_build % 0x10000 + f.fw_minor % 0x100 * 0x10000 +
      f.fw_major % 0x100 * 0x1000000) ++
    (utf8Encode f.model_str ++ List.replicate (8 - (utf8Encode f.model_str).length) 0)

/-! ## SHA-256 and HMAC (`hashlib.sha256` / `hmac.new`)

Pure byte-level implementations of the standard algorithms invoked by
`ble.py`.  All words are `Nat` reduced `% 2^32`. -/

/-- 32-bit right rotation. -/
def rotr32 (x n : Nat) : Nat := ((x >>> n) ||| (x <<< (32 - n))) % 0x100000000

/-- SHA-256 round constants. -/
def sha256K : List Nat :=
  [1116352408, 1899447441, 3049323471, 3921009573, 961987163, 1508970993,
   2453635748, 2870763221, 3624381080, 310598401, 607225278, 1426881987,
   1925078388, 2162078206, 2614888103, 3248222580, 3835390401, 4022224774,
   264347078, 604807628, 770255983, 1249150122, 1555081692, 1996064986,
   2554220882, 2821834349, 2952996808, 3210313671, 3336571891, 3584528711,
   113926993, 338241895, 666307205, 773529912, 1294757372, 1396182291,
   1695183700, 1986661051, 2177026350, 2456956037, 2730485921, 2820302411,
   3259730800, 3345764771, 3516065817, 3600352804, 4094571909, 275423344,
   430227734, 506948616, 659060556, 883997877, 958139571, 1322822218,
   1537002063, 1747873779, 1955562222, 2024104815, 2227730452, 2361852424,
   2428436474, 2756734187, 3204031479, 3329325298]

/-- SHA-256 initial hash state. -/
def sha256H0 : List Nat :=
  [1779033703, 3144134277, 1013904242, 2773480762,
   1359893119, 2600822924, 528734635, 1541459225]

/-- Big-endian 64-bit encoding of the message bit length. -/
def be64 (n : Nat) : List Nat :=
  [n / 0x100000000000000 % 0x100, n / 0x1000000000000 % 0x100,
   n / 0x10000000000 % 0x100, n / 0x100000000 % 0x100,
   n / 0x1000000 % 0x100, n / 0x10000 % 0x100, n / 0x100 % 0x100, n % 0x100]

/-- SHA-256 padding: append `0x80`, zero bytes to 56 mod 64, then the
big-endian 64-bit bit length. -/
def sha256Pad (msg : List Nat) : List Nat :=
  msg ++ [0x80] ++ List.replicate ((119 - msg.length % 64) % 64) 0 ++
    be64 (8 * msg.length)

/-- Group a byte list into big-endian 32-bit words. -/
def be32Words : List Nat → List Nat
  | b0 :: b1 :: b2 :: b3 :: rest =>
    (b0 * 0x1000000 + b1 * 0x10000 + b2 * 0x100 + b3) :: be32Words rest
  | _ => []

/-- Split a byte list into 64-byte blocks (structural recursion on a
fuel bound so the kernel can evaluate it; `fuel = l.length` always
suffices since every step consumes a nonempty list). -/
def chunks64Go : Nat → List Nat → List (List Nat)
  | _, [] => []
  | 0, l => [l.take 64]
  | fuel + 1, a :: as => ((a :: as).take 64) :: chunks64Go fuel ((a :: as).drop 64)

/-- Split a byte list into 64-byte blocks. -/
def chunks64 (l : List Nat) : List (List Nat) := chunks64Go l.length l

/-- Message-schedule extension: repeatedly append
`σ1(w[n-2]) + w[n-7] + σ0(w[n-15]) + w[n-16] mod 2^32`. -/
def sha256Extend (ws : List Nat) : Nat → List Nat
  | 0 => ws
  | fuel + 1 =>
    let n := ws.length
    let s0 := rotr32 (ws.getD (n - 15) 0) 7 ^^^ rotr32 (ws.getD (n - 15) 0) 18 ^^^
      (ws.getD (n - 15) 0 >>> 3)
    let s1 := rotr32 (ws.getD (n - 2) 0) 17 ^^^ rotr32 (ws.getD (n - 2) 0) 19 ^^^
      (ws.getD (n - 2) 0 >>> 10)
    sha256Extend (ws ++ [(ws.getD (n - 16) 0 + s0 + ws.getD (n - 7) 0 + s1) % 0x100000000]) fuel

/-- One SHA-256 compression step for round constant `k` and schedule word `w`. -/
def sha256Step (st : List Nat) (kw : Nat × Nat) : List Nat :=
  let a := st.getD 0 0
  let b := st.getD 1 0
  let c := st.getD 2 0
  let d := st.getD 3 0
  let e := st.getD 4 0
  let f := st.getD 5 0
  let g := st.getD 6 0
  let h := st.getD 7 0
  let s1 := rotr32 e 6 ^^^ rotr32 e 11 ^^^ rotr32 e 25
  let ch := (e &&& f) ^^^ ((e ^^^ 0xFFFFFFFF) &&& g)
  let temp1 := (h + s1 + ch + kw.1 + kw.2) % 0x100000000
  let s0 := rotr32 a 2 ^^^ rotr32 a 13 ^^^ rotr32 a 22
  let maj := (a &&& b) ^^^ (a &&& c) ^^^ (b &&& c)
  let temp2 := (s0 + maj) % 0x100000000
  [(temp1 + temp2) % 0x100000000, a, b, c, (d + temp1) % 0x100000000, e, f, g]

/-- Compress one 64-byte block into the running hash state. -/
def sha256Block (st : List Nat) (block : List Nat) : List Nat :=
  let ws := sha256Extend (be32Words block) 48
  let t := (sha256K.zip ws).foldl sha256Step st
  (st.zip t).map (fun p => (p.1 + p.2) % 0x100000000)

/-- Big-endian 32-bit byte encoding of one word. -/
def be32 (n : Nat) : List Nat :=
  [n / 0x1000000 % 0x100, n / 0x10000 % 0x100, n / 0x100 % 0x100, n % 0x100]

/-- SHA-256 digest of a byte list, as 32 bytes. -/
def sha256 (msg : List Nat) : List Nat :=
  (((chunks64 (sha256Pad msg)).foldl sha256Block sha256H0).map be32).flatten

/-- `hmac.new(key, msg, hashlib.sha256).digest()`: standard HMAC with a
64-byte block size (long keys are hashed first, keys are zero-padded,
inner pad `0x36`, outer pad `0x5C`). -/
def hmacSha256 (key msg : List Nat) : List Nat :=
  let k0 := if 64 < key.length then sha256 key else key
  let kp := k0 ++ List.replicate (64 - k0.length) 0
  sha256 ((kp.map (fun b => b ^^^ 0x5C)) ++
    sha256 ((kp.map (fun b => b ^^^ 0x36)) ++ msg))

/-! ## JSON model (`json.dumps(obj, separators=(",", ":"), ensure_ascii=False)`) -/

/-- JSON values as produced by the Python code (dict values are strings,
numbers, booleans, `None`, lists or nested dicts; dicts keep insertion
order). -/
inductive PyJson where
  | null : PyJson
  | bool : Bool → PyJson
  | int : Int → PyJson
  | str : String → PyJson
  | arr : List PyJson → PyJson
  | obj : List (String × PyJson) → PyJson
deriving Repr

/-- Lowercase hex digit. -/
def hexDigit (n : Nat) : Char := "0123456789abcdef".toList.getD n '0'

/-- `json.dumps` escaping for one character with `ensure_ascii=False`:
only `"`  `\` and control characters below U+0020 are escaped. -/
def jsonEscapeChar (c : Char) : List Char :=
  if c = '"' then ['\\', '"']
  else if c = '\\' then ['\\', '\\']
  else if c.toNat = 0x08 then ['\\', 'b']
  else if c.toNat = 0x09 then ['\\', 't']
  else if c.toNat = 0x0A then ['\\', 'n']
  else if c.toNat = 0x0C then ['\\', 'f']
  else if c.toNat = 0x0D then ['\\', 'r']
  else if c.toNat < 0x20 then
    ['\\', 'u', '0', '0', hexDigit (c.toNat / 16), hexDigit (c.toNat % 16)]
  else [c]

/-- JSON string literal: quotes around the escaped characters. -/
def jsonQuote (s : String) : String :=
  "\"" ++ ((s.toList.map jsonEscapeChar).flatten.asString) ++ "\""

mutual

/-- Compact serialization, i.e.
`json.dumps(v, separators=(",", ":"), ensure_ascii=False)`. -/
def jsonDumps : PyJson → String
  | .null => "null"
  | .bool true => "true"
  | .bool false => "false"
  | .int n => toString n
  | .str s => jsonQuote s
  | .arr xs => "[" ++ jsonDumpsArr xs ++ "]"
  | .obj kvs => "\x7b" ++ jsonDumpsObj kvs ++ "\x7d"

/-- Comma-joined compact serialization of array elements. -/
def jsonDumpsArr : List PyJson → String
  | [] => ""
  | [x] => jsonDumps x
  | x :: y :: rest => jsonDumps x ++ "," ++ jsonDumpsArr (y :: rest)

/-- Comma-joined compact serialization of object entries. -/
def jsonDumpsObj : List (String × PyJson) → String
  | [] => ""
  | [(k, v)] => jsonQuote k ++ ":" ++ jsonDumps v
  | (k, v) :: kv2 :: rest =>
    jsonQuote k ++ ":" ++ jsonDumps v ++ "," ++ jsonDumpsObj (kv2 :: rest)

end

/-- `dict.update`: replace the value of an existing key in place, append
new keys in iteration order. -/
def pyDictUpdate (base extra : List (String × PyJson)) : List (String × PyJson) :=
  extra.foldl
    (fun acc kv =>
      if acc.any (fun p => p.1 == kv.1) then
        acc.map (fun p => if p.1 == kv.1 then (p.1, kv.2) else p)
      else acc ++ [kv])
    base

/-- `str.encode("utf-8")`: the UTF-8 bytes of a Lean `String`. -/
def strUtf8 (s : String) : List Nat :=
  (s.toList.map (fun c => utf8EncodeChar c.toNat)).flatten

/-! ## `ble.py`: command framing -/

/-- `_hmac4_sha256` from `ble.py`: the 4-byte MAC over
`little-endian-u16(msg_seq & 0xFFFF) ++ header_and_payload`. -/
def _hmac4_sha256 (key : List Nat) (msg_seq : Nat) (header_and_payload : List Nat) :
    List Nat :=
  (hmacSha256 key (u16le (msg_seq % 0x10000) ++ header_and_payload)).take 4

/-- `build_command_frame` from `ble.py`: `header(1) + payload(N) + hmac(4)`;
`skey` is the key bytes (`bytes.fromhex(skey_hex)` in the source),
defaulting to `BLE_DEFAULT_SKEY` when the caller passed `None`. -/
def build_command_frame (payload : List Nat) (msg_seq : Nat)
    (skey : Option (List Nat)) : List Nat :=
  let key := skey.getD BLE_DEFAULT_SKEY
  let hp := BLE_HEADER_SHORT :: payload
  hp ++ _hmac4_sha256 key msg_seq hp

/-- `build_json_command` from `ble.py`: serialize
`obj = dict(action=action); obj.update(extra)` compactly, then frame it. -/
def build_json_command (action : Int) (extra : List (String × PyJson))
    (msg_seq : Nat) (skey : Option (List Nat)) : List Nat :=
  let obj := pyDictUpdate [("action", PyJson.int action)] extra
  build_command_frame (strUtf8 (jsonDumps (PyJson.obj obj))) msg_seq skey

/-! ## `api_client.py`: session manager

`InkposterApiClient`'s mutable fields are modelled as `ApiClientState`;
`time.time()` is the parameter `now` (instants are modelled as integer
Unix seconds); the persisted `Store` content, the login/refresh HTTP
responses and `uuid.uuid4()` are oracles.  A failed HTTP auth call
(network error or `raise_for_status`) is the oracle value `none`.  Each
model returns the interaction trace it performed. -/

/-- A login/refresh response body: `{accessToken, refreshToken, expiresIn}`
where `expiresIn` is an absolute Unix timestamp despite its name. -/
structure AuthResponse where
  accessToken : String
  refreshToken : String
  expiresIn : Int
deriving DecidableEq, Repr

/-- Persisted token record (the `Store` content, with the `data.get`
defaults already applied). -/
structure TokenRecord where
  device_id : String
  access_token : String
  refresh_token : String
  expires_at : Int
deriving DecidableEq, Repr

/-- In-memory client state (`_device_id`, `_access_token`,
`_refresh_token`, `_expires_at`). -/
structure ApiClientState where
  device_id : String
  access_token : String
  refresh_token : String
  expires_at : Int
deriving DecidableEq, Repr

/-- Client state right after `__init__`. -/
def initialApiClientState : ApiClientState :=
  { device_id := "", access_token := "", refresh_token := "", expires_at := 0 }

/-- `_load_persisted_tokens`: copies the stored fields into the client
state (a side effect that happens even when the validity check fails) and
returns `bool(access_token and expires_at > time.time())`. -/
def _load_persisted_tokens (st : ApiClientState) (store : Option TokenRecord)
    (now : Int) : ApiClientState × Bool :=
  match store with
  | none => (st, false)
  | some d =>
    ({ st with
        device_id := d.device_id
        access_token := d.access_token
        refresh_token := d.refresh_token
        expires_at := d.expires_at },
      decide (d.access_token ≠ "" ∧ now < d.expires_at))

/-- `_apply_auth_response`: copy both tokens verbatim and `expiresIn` as
an absolute timestamp. -/
def _apply_auth_response (st : ApiClientState) (data : AuthResponse) : ApiClientState :=
  { st with
    access_token := data.accessToken
    refresh_token := data.refreshToken
    expires_at := data.expiresIn }

/-- `_is_token_expiring_soon`: `time.time() >= expires_at - REFRESH_BUFFER_SECS`. -/
def _is_token_expiring_soon (now : Int) (st : ApiClientState) : Bool :=
  decide (st.expires_at - REFRESH_BUFFER_SECS ≤ now)

/-- `_async_refresh`: on success applies the auth response, on failure
(`resp = none`) leaves the state unchanged and reports the exception. -/
def _async_refresh (st : ApiClientState) (resp : Option AuthResponse) :
    ApiClientState × Bool :=
  match resp with
  | none => (st, false)
  | some r => (_apply_auth_response st r, true)

/-- `async_login`: generates a device id first if absent (this mutation
survives a failed request), then applies the auth response on success. -/
def async_login (st : ApiClientState) (newDeviceId : String)
    (resp : Option AuthResponse) : ApiClientState × Bool :=
  let st1 := if st.device_id == "" then { st with device_id := newDeviceId } else st
  match resp with
  | none => (st1, false)
  | some r => (_apply_auth_response st1 r, true)

/-- Auth interactions performed by `async_ensure_token`. -/
inductive AuthEvent where
  | loadPersisted
  | refreshAttempt
  | loginAttempt
deriving DecidableEq, Repr

/-- The tail of `async_ensure_token` after the persisted-load block: return
if a valid token is held, otherwise refresh, falling back to login. -/
def ensureTail (now : Int) (st : ApiClientState) (trace : List AuthEvent)
    (refreshResp loginResp : Option AuthResponse) (newDeviceId : String) :
    ApiClientState × List AuthEvent × Bool :=
  if st.access_token != "" && !(_is_token_expiring_soon now st) then (st, trace, true)
  else if st.access_token != "" then
    match _async_refresh st refreshResp with
    | (st1, true) => (st1, trace ++ [.refreshAttempt], true)
    | (st1, false) =>
      let (st2, ok) := async_login st1 newDeviceId loginResp
      (st2, trace ++ [.refreshAttempt, .loginAttempt], ok)
  else
    let (st2, ok) := async_login st newDeviceId loginResp
    (st2, trace ++ [.loginAttempt], ok)

/-- `async_ensure_token` (the body inside `_refresh_lock`).  The `Bool`
result is `true` when the call returns normally and `false` when the last
resort login raised (`AuthenticationFailed` propagates to the caller).
The oracles give the outcome of any refresh/login HTTP call made during
this invocation. -/
def async_ensure_token (now : Int) (st : ApiClientState) (store : Option TokenRecord)
    (refreshResp loginResp : Option AuthResponse) (newDeviceId : String) :
    ApiClientState × List AuthEvent × Bool :=
  if st.access_token == "" then
    let (st1, loaded) := _load_persisted_tokens st store now
    if loaded then
      if !(_is_token_expiring_soon now st1) then (st1, [.loadPersisted], true)
      else
        match _async_refresh st1 refreshResp with
        | (st2, true) => (st2, [.loadPersisted, .refreshAttempt], true)
        | (st2, false) =>
          ensureTail now st2 [.loadPersisted, .refreshAttempt] refreshResp loginResp
            newDeviceId
    else ensureTail now st1 [.loadPersisted] refreshResp loginResp newDeviceId
  else ensureTail now st [] refreshResp loginResp newDeviceId

/-! ## `api_client.py`: authenticated request with single 401 retry -/

/-- Outcome of `_async_request` as seen by the caller.  `ok` means
`raise_for_status()` passed and the body was returned, `httpError` means
it raised (aiohttp raises exactly for `status >= 400`), `authError` means
a login/refresh raised during token recovery. -/
inductive ReqOutcome where
  | ok (status : Nat)
  | httpError (status : Nat)
  | authError
deriving DecidableEq, Repr

/-- `resp.raise_for_status()`: aiohttp raises iff `status >= 400`. -/
def raiseForStatus (status : Nat) : ReqOutcome :=
  if 400 ≤ status then .httpError status else .ok status

/-- HTTP sends (bearer token of each) and 401-path auth attempts made by
one `_async_request` call. -/
structure ReqTrace where
  sends : List String
  refreshAttempts : Nat
  loginAttempts : Nat
deriving DecidableEq, Repr

/-- `_async_request`: ensure a token, send, and on a 401 refresh (login
as fallback) and resend exactly once.  `status1`/`status2` are the HTTP
status codes the server answers to the first and to the retried send. -/
def _async_request (now : Int) (st : ApiClientState) (store : Option TokenRecord)
    (refreshResp loginResp : Option AuthResponse) (newDeviceId : String)
    (status1 status2 : Nat) :
    ApiClientState × List AuthEvent × ReqTrace × ReqOutcome :=
  match async_ensure_token now st store refreshResp loginResp newDeviceId with
  | (st1, etrace, false) =>
    (st1, etrace, { sends := [], refreshAttempts := 0, loginAttempts := 0 }, .authError)
  | (st1, etrace, true) =>
    if status1 == 401 then
      match _async_refresh st1 refreshResp with
      | (st2, true) =>
        (st2, etrace,
          { sends := [st1.access_token, st2.access_token]
            refreshAttempts := 1
            loginAttempts := 0 },
          raiseForStatus status2)
      | (st2, false) =>
        match async_login st2 newDeviceId loginResp with
        | (st3, true) =>
          (st3, etrace,
            { sends := [st1.access_token, st3.access_token]
              refreshAttempts := 1
              loginAttempts := 1 },
            raiseForStatus status2)
        | (st3, false) =>
          (st3, etrace,
            { sends := [st1.access_token], refreshAttempts := 1, loginAttempts := 1 },
            .authError)
    else
      (st1, etrace, { sends := [st1.access_token], refreshAttempts := 0, loginAttempts := 0 },
        raiseForStatus status1)

/-! ## `api_client.py`: conversion poll loop -/

/-- `dict.get(key, default)` on a JSON object. -/
def pyGet (resp : List (String × PyJson)) (key : String) (dflt : PyJson) : PyJson :=
  match resp.find? (fun p => p.1 == key) with
  | some p => p.2
  | none => dflt

/-- Python `value == s` for a string literal `s`: true only for an equal
string (any non-string value compares unequal). -/
def pyEqStr (v : PyJson) (s : String) : Bool :=
  match v with
  | .str t => t == s
  | _ => false

/-- The loop guard value: `last_response.get("status", "") == "pending"`
(a non-string value never equals the string, so it breaks the loop). -/
def pollPending (resp : List (String × PyJson)) : Bool :=
  pyEqStr (pyGet resp "status" (PyJson.str "")) "pending"

/-- The `while` loop of `async_poll_is_converted`.  Requests are modelled
as instantaneous and each `asyncio.sleep(POLL_INTERVAL_SECS)` advances
time by 2 s, so `time.monotonic() - start` before iteration `i` is
`2 * i` and the guard `< POLL_TIMEOUT_SECS` admits exactly
`POLL_TIMEOUT_SECS / POLL_INTERVAL_SECS = 60` iterations; `fuel` is the
number of guard checks remaining.  `responses i` is the JSON body the
endpoint returns to attempt `i` (0-based). -/
def pollLoop (responses : Nat → List (String × PyJson)) :
    Nat → Nat → List (String × PyJson) → Nat × List (String × PyJson)
  | 0, attempts, last => (attempts, last)
  | fuel + 1, attempts, _ =>
    let resp := responses attempts
    if !(pollPending resp) then
      (attempts + 1, resp)
    else pollLoop responses fuel (attempts + 1) resp

/-- `async_poll_is_converted`: poll until the status is no longer
`"pending"` or the 120-second ceiling elapses; returns the number of
attempts made and the last response (initially the empty dict). -/
def async_poll_is_converted (responses : Nat → List (String × PyJson)) :
    Nat × List (String × PyJson) :=
  pollLoop responses (POLL_TIMEOUT_SECS / POLL_INTERVAL_SECS) 0 []

/-! ## `ble.py`: `async_send_command` session -/

/-- How one `async_send_command` run ended. -/
inductive SendOutcome where
  | malformed
  | notReady
  | missingCommand
  | done (finalStatus : Except BleError BleStatusDecoded)
deriving Repr

/-- Trace of one `async_send_command` run: the statuses read before the
command write, the key the session signed with (`none` when it did not
build a frame itself), the frame written, and the outcome. -/
structure SendTrace where
  preReads : List BleStatusDecoded
  usedKey : Option (List Nat)
  frame : Option (List Nat)
  outcome : SendOutcome
deriving Repr

/-- The build-and-send tail of `async_send_command`: build the frame from
`action` with the most recently read `msg_seq` (or fall back to the
caller's pre-built `command_bytes`), write it, wait, read status again. -/
def sendCommandTail (reads : List BleStatusDecoded) (status_before : BleStatusDecoded)
    (command_bytes : Option (List Nat)) (action : Option Int)
    (extra : List (String × PyJson)) (skey : Option (List Nat))
    (rawAfter : List Nat) : SendTrace :=
  match action with
  | some a =>
    { preReads := reads
      usedKey := some (skey.getD BLE_DEFAULT_SKEY)
      frame := some (build_json_command a extra status_before.msg_seq skey)
      outcome := .done (decode_status rawAfter) }
  | none =>
    match command_bytes with
    | none => { preReads := reads, usedKey := none, frame := none, outcome := .missingCommand }
    | some f =>
      { preReads := reads
        usedKey := none
        frame := some f
        outcome := .done (decode_status rawAfter) }

/-- `async_send_command` from `ble.py`: read status, drop any
caller-supplied key when the device is not in secure mode, retry once
after 3 s when `launcherCmdReady` is false (re-checking both flags on the
fresh status), then build and write the command and read status again.
`raw1`, `raw2`, `rawAfter` are the bytes the three possible status reads
return; `skey` is the decoded caller key (`skey_hex`). -/
def async_send_command (raw1 raw2 rawAfter : List Nat)
    (command_bytes : Option (List Nat)) (action : Option Int)
    (extra : List (String × PyJson)) (skey : Option (List Nat)) : SendTrace :=
  match decode_status raw1 with
  | .error _ => { preReads := [], usedKey := none, frame := none, outcome := .malformed }
  | .ok s1 =>
    let flags1 := parse_status_flags s1.status_original
    let skey1 := if flags1.secure_mode then skey else none
    if flags1.launcher_cmd_ready then
      sendCommandTail [s1] s1 command_bytes action extra skey1 rawAfter
    else
      match decode_status raw2 with
      | .error _ => { preReads := [s1], usedKey := none, frame := none, outcome := .malformed }
      | .ok s2 =>
        let flags2 := parse_status_flags s2.status_original
        if !flags2.launcher_cmd_ready then
          { preReads := [s1, s2], usedKey := none, frame := none, outcome := .notReady }
        else
          let skey2 := if flags2.secure_mode then skey1 else none
          sendCommandTail [s1, s2] s2 command_bytes action extra skey2 rawAfter

/-! ## Theorems -/

set_option maxRecDepth 8000

set_option maxHeartbeats 2000000

/-- Decoding inverts encoding for one Unicode scalar, whatever follows. -/
theorem utf8DecodeReplace_encodeChar (c : Nat) (rest : List Nat)
    (hs : UnicodeScalar c) :
    utf8DecodeReplace (utf8EncodeChar c ++ rest) = c :: utf8DecodeReplace rest := by
  obtain ⟨hlt, hsur⟩ := hs
  by_cases h1 : c < 0x80
  · simp only [utf8EncodeChar, if_pos h1, List.cons_append, List.nil_append]
    rw [utf8DecodeReplace.eq_def]
    simp [h1]
  · by_cases h2 : c < 0x800
    · simp only [utf8EncodeChar, if_neg h1, if_pos h2, List.cons_append, List.nil_append]
      rw [utf8DecodeReplace.eq_def]
      dsimp only
      rw [if_neg (by omega), if_neg (by omega), if_pos (by omega)]
      rw [if_pos (by simp only [utf8Cont, decide_eq_true_eq]; omega)]
      congr 1
      simp only [utf8Val2]; omega
    · by_cases h3 : c < 0x10000
      · simp only [utf8EncodeChar, if_neg h1, if_neg h2, if_pos h3, List.cons_append,
          List.nil_append]
        rw [utf8DecodeReplace.eq_def]
        dsimp only
        rw [if_neg (by omega), if_neg (by omega), if_neg (by omega), if_pos (by omega)]
        have hc2 : utf8Cont2 (0xE0 + c / 0x1000) (0x80 + c / 0x40 % 0x40) = true := by
          simp only [utf8Cont2, utf8Cont]
          repeat' split
          all_goals simp only [decide_eq_true_eq]
          all_goals omega
        rw [if_pos hc2]
        rw [if_pos (by simp only [utf8Cont, decide_eq_true_eq]; omega)]
        congr 1
        simp only [utf8Val3]; omega
      · simp only [utf8EncodeChar, if_neg h1, if_neg h2, if_neg h3, List.cons_append,
          List.nil_append]
        rw [utf8DecodeReplace.eq_def]
        dsimp only
        rw [if_neg (by omega), if_neg (by omega), if_neg (by omega), if_neg (by omega),
          if_pos (by omega)]
        have hc2 : utf8Cont2 (0xF0 + c / 0x40000) (0x80 + c / 0x1000 % 0x40) = true := by
          simp only [utf8Cont2, utf8Cont]
          repeat' split
          all_goals simp only [decide_eq_true_eq]
          all_goals omega
        rw [if_pos hc2]
        rw [if_pos (by simp only [utf8Cont, decide_eq_true_eq]; omega)]
        rw [if_pos (by simp only [utf8Cont, decide_eq_true_eq]; omega)]
        congr 1
        simp only [utf8Val4]; omega

/-- Decoding inverts encoding for any list of Unicode scalars. -/
theorem utf8Encode_roundtrip (cps : List Nat) (h : ∀ c ∈ cps, UnicodeScalar c) :
    utf8DecodeReplace (utf8Encode cps) = cps := by
  induction cps with
  | nil => rfl
  | cons c cs ih =>
    have he : utf8Encode (c :: cs) = utf8EncodeChar c ++ utf8Encode cs := by
      simp [utf8Encode]
    rw [he, utf8DecodeReplace_encodeChar c _ (h c (by simp))]
    rw [ih (fun x hx => h x (by simp [hx]))]

/-- UTF-8 bytes of NUL-free scalars are themselves NUL-free. -/
theorem utf8Encode_ne_zero (cps : List Nat) (h : ∀ c ∈ cps, c ≠ 0) :
    ∀ b ∈ utf8Encode cps, b ≠ 0 := by
  induction cps with
  | nil => simp [utf8Encode]
  | cons c cs ih =>
    have he : utf8Encode (c :: cs) = utf8EncodeChar c ++ utf8Encode cs := by
      simp [utf8Encode]
    rw [he]
    intro b hb
    rcases List.mem_append.mp hb with hb1 | hb2
    · have hc : c ≠ 0 := h c (by simp)
      simp only [utf8EncodeChar] at hb1
      split at hb1
      · simp at hb1; omega
      · split at hb1
        · simp at hb1; omega
        · split at hb1
          · simp at hb1; omega
          · simp at hb1; omega
    · exact ih (fun x hx => h x (by simp [hx])) b hb2

/-- `takeWhile (b != 0)` strips exactly the NUL padding after NUL-free
content. -/
theorem takeWhile_padding (mb : List Nat) (k : Nat) (h : ∀ b ∈ mb, b ≠ 0) :
    (mb ++ List.replicate k 0).takeWhile (fun b => b != 0) = mb := by
  induction mb with
  | nil =>
    cases k with
    | zero => rfl
    | succ n => simp [List.replicate_succ, List.takeWhile]
  | cons b bs ih =>
    have hb : (b != 0) = true := by simp [h b (by simp)]
    simp only [List.cons_append, List.takeWhile_cons, hb, if_true]
    congr 1
    exact ih (fun x hx => h x (by simp [hx]))

/-- C1 counterexample: the claim says bitmask `0x42` decodes to
`generalError = true`, but `0x42 & 0x1 = 0`, so `general_error` is false
(the set low bit is `0x2`, which is `battery_low`). -/
theorem parse_status_flags_0x42_counterexample :
    (parse_status_flags 0x42).general_error = false ∧
      (parse_status_flags 0x42).battery_low = true := by
  decide

/-- C1 (amended): decoding status flags from bitmask `0x00000042` yields
`secure_mode = true` and `battery_low = true` (bits `0x40` and `0x2`),
with all fourteen other named booleans false. -/
theorem parse_status_flags_0x42 :
    parse_status_flags 0x42 =
      { general_error := false
        battery_low := true
        battery_charging := false
        battery_charging_low := false
        battery_full := false
        secure_mode := true
        user_interaction_required := false
        wifi_connection_error := false
        wifi_link_ok := false
        server_connection_error := false
        server_socket_link_ok := false
        sync_error := false
        fw_update_error := false
        fw_update_ready := false
        launcher_cmd_ready := false
        datetime_synced := false } := by
  decide

/-- C10: `parse_status_flags` depends on its input only through the 16
defined bit masks: bitmasks that agree on every defined mask decode to
equal flag records, so undefined bits have no effect. -/
theorem parse_status_flags_masks_congr (x y : Nat)
    (h : ∀ m ∈ STATUS_FLAG_MASKS, x &&& m = y &&& m) :
    parse_status_flags x = parse_status_flags y := by
  have h1 := h STATUS_FLAG_GENERAL_ERROR (by decide)
  have h2 := h STATUS_FLAG_BATTERY_LOW (by decide)
  have h3 := h STATUS_FLAG_BATTERY_CHARGING (by decide)
  have h4 := h STATUS_FLAG_BATTERY_CHARGING_LOW (by decide)
  have h5 := h STATUS_FLAG_BATTERY_FULL (by decide)
  have h6 := h STATUS_FLAG_SECURE_MODE (by decide)
  have h7 := h STATUS_FLAG_USER_INTERACTION_REQUIRED (by decide)
  have h8 := h STATUS_FLAG_WIFI_CONNECTION_ERROR (by decide)
  have h9 := h STATUS_FLAG_WIFI_LINK_OK (by decide)
  have h10 := h STATUS_FLAG_SERVER_CONNECTION_ERROR (by decide)
  have h11 := h STATUS_FLAG_SERVER_SOCKET_LINK_OK (by decide)
  have h12 := h STATUS_FLAG_SYNC_ERROR (by decide)
  have h13 := h STATUS_FLAG_FW_UPDATE_ERROR (by decide)
  have h14 := h STATUS_FLAG_FW_UPDATE_READY (by decide)
  have h15 := h STATUS_FLAG_LAUNCHER_CMD_READY (by decide)
  have h16 := h STATUS_FLAG_DATETIME_SYNCED (by decide)
  simp [parse_status_flags, h1, h2, h3, h4, h5, h6, h7, h8, h9, h10, h11, h12,
    h13, h14, h15, h16]

/-- C10 witness: `0x42` and `0x84062` differ only in undefined bits
(`0x20`, `0x4000`, `0x80000`), so they decode to the same flags. -/
theorem parse_status_flags_masks_congr_witness :
    (∀ m ∈ STATUS_FLAG_MASKS, 0x42 &&& m = 0x84062 &&& m) ∧
      parse_status_flags 0x42 = parse_status_flags 0x84062 :=
  ⟨by decide, parse_status_flags_masks_congr 0x42 0x84062 (by decide)⟩

/-- C2: `decode_status` fails (with the malformed-frame error) exactly on
inputs shorter than 28 bytes, and returns a decoded frame on every input
of length at least 28 — including when the model field is not valid
UTF-8, since the replacement decoder is total. -/
theorem decode_status_length_iff (raw : List Nat) :
    (decode_status raw = Except.error BleError.malformedFrame ↔ raw.length < 28) ∧
      ((∃ f, decode_status raw = Except.ok f) ↔ 28 ≤ raw.length) := by
  unfold decode_status
  by_cases h : raw.length < BLE_STATUS_LEN
  · rw [if_pos h]
    simp only [BLE_STATUS_LEN] at h
    refine ⟨⟨fun _ => h, fun _ => rfl⟩, ?_, ?_⟩
    · rintro ⟨f, hf⟩
      exact Except.noConfusion hf
    · intro hle
      omega
  · rw [if_neg h]
    simp only [BLE_STATUS_LEN] at h
    refine ⟨⟨fun hc => Except.noConfusion hc, fun hlt => absurd hlt (by omega)⟩,
      fun _ => by omega, fun _ => ⟨_, rfl⟩⟩

/-- Field-wise extensionality for decoded status frames. -/
theorem bleStatusDecoded_ext (a b : BleStatusDecoded)
    (h1 : a.company_id = b.company_id) (h2 : a.msg_seq = b.msg_seq)
    (h3 : a.version = b.version) (h4 : a.capacity = b.capacity)
    (h5 : a.wifi_quality = b.wifi_quality) (h6 : a.key_seq = b.key_seq)
    (h7 : a.status_original = b.status_original) (h8 : a.jobs = b.jobs)
    (h9 : a.fw_major = b.fw_major) (h10 : a.fw_minor = b.fw_minor)
    (h11 : a.fw_build = b.fw_build) (h12 : a.model_str = b.model_str) : a = b := by
  cases a
  cases b
  simp only [BleStatusDecoded.mk.injEq]
  exact ⟨h1, h2, h3, h4, h5, h6, h7, h8, h9, h10, h11, h12⟩

/-- C3: round-trip of the status codec.  For every frame whose fixed-width
fields are in range and whose model string is made of NUL-free Unicode
scalars fitting the 8-byte field (NUL-terminated or exactly full-width on
the wire), decoding the 28-byte little-endian encoding returns the frame
unchanged. -/
theorem decode_status_encode_roundtrip (f : BleStatusDecoded)
    (h1 : f.company_id < 0x10000) (h2 : f.msg_seq < 0x10000)
    (h3 : f.version < 0x100) (h4 : f.capacity < 0x100) (h5 : f.wifi_quality < 0x100)
    (h6 : f.key_seq < 0x100) (h7 : f.status_original < 0x100000000)
    (h8 : f.jobs < 0x100000000) (h9 : f.fw_major < 0x100) (h10 : f.fw_minor < 0x100)
    (h11 : f.fw_build < 0x10000)
    (hm1 : ∀ c ∈ f.model_str, UnicodeScalar c ∧ c ≠ 0)
    (hm2 : (utf8Encode f.model_str).length ≤ 8) :
    decode_status (encode_status f) = Except.ok f := by
  have hlen : (encode_status f).length = 28 := by
    simp [encode_status, u16le, u32le, List.length_append]
    omega
  have hnl : ¬((encode_status f).length < BLE_STATUS_LEN) := by
    simp [hlen, BLE_STATUS_LEN]
  have e1 : le16 (encode_status f) 0 =
      f.company_id % 0x100 + 0x100 * (f.company_id / 0x100 % 0x100) := rfl
  have e2 : le16 (encode_status f) 2 =
      f.msg_seq % 0x100 + 0x100 * (f.msg_seq / 0x100 % 0x100) := rfl
  have e3 : (encode_status f).getD 4 0 = f.version % 0x100 := rfl
  have e4 : (encode_status f).getD 5 0 = f.capacity % 0x100 := rfl
  have e5 : (encode_status f).getD 6 0 = f.wifi_quality % 0x100 := rfl
  have e6 : (encode_status f).getD 7 0 = f.key_seq % 0x100 := rfl
  have e7 : le32 (encode_status f) 8 =
      f.status_original % 0x100 + 0x100 * (f.status_original / 0x100 % 0x100) +
        0x10000 * (f.status_original / 0x10000 % 0x100) +
        0x1000000 * (f.status_original / 0x1000000 % 0x100) := rfl
  have e8 : le32 (encode_status f) 12 =
      f.jobs % 0x100 + 0x100 * (f.jobs / 0x100 % 0x100) +
        0x10000 * (f.jobs / 0x10000 % 0x100) +
        0x1000000 * (f.jobs / 0x1000000 % 0x100) := rfl
  have e9 : le32 (encode_status f) 16 =
      (f.fw_build % 0x10000 + f.fw_minor % 0x100 * 0x10000 +
          f.fw_major % 0x100 * 0x1000000) % 0x100 +
        0x100 * ((f.fw_build % 0x10000 + f.fw_minor % 0x100 * 0x10000 +
          f.fw_major % 0x100 * 0x1000000) / 0x100 % 0x100) +
        0x10000 * ((f.fw_build % 0x10000 + f.fw_minor % 0x100 * 0x10000 +
          f.fw_major % 0x100 * 0x1000000) / 0x10000 % 0x100) +
        0x1000000 * ((f.fw_build % 0x10000 + f.fw_minor % 0x100 * 0x10000 +
          f.fw_major % 0x100 * 0x1000000) / 0x1000000 % 0x100) := rfl
  have ed : (encode_status f).drop 20 =
      utf8Encode f.model_str ++
        List.replicate (8 - (utf8Encode f.model_str).length) 0 := rfl
  have emod : ((encode_status f).drop 20).take 8 =
      utf8Encode f.model_str ++
        List.replicate (8 - (utf8Encode f.model_str).length) 0 := by
    rw [ed]
    apply List.take_of_length_le
    simp [List.length_append]
    omega
  have emodel : utf8DecodeReplace
      ((((encode_status f).drop 20).take 8).takeWhile (fun b => b != 0)) =
      f.model_str := by
    rw [emod, takeWhile_padding _ _ (utf8Encode_ne_zero _ (fun c hc => (hm1 c hc).2)),
      utf8Encode_roundtrip _ (fun c hc => (hm1 c hc).1)]
  unfold decode_status
  rw [if_neg hnl]
  refine congrArg Except.ok ?_
  apply bleStatusDecoded_ext
  · dsimp only
    rw [e1]; omega
  · dsimp only
    rw [e2]; omega
  · dsimp only
    rw [e3]; omega
  · dsimp only
    rw [e4]; omega
  · dsimp only
    rw [e5]; omega
  · dsimp only
    rw [e6]; omega
  · dsimp only
    rw [e7]; omega
  · dsimp only
    rw [e8]; omega
  · dsimp only
    rw [e9]; omega
  · dsimp only
    rw [e9]; omega
  · dsimp only
    rw [e9]; omega
  · dsimp only
    exact emodel

/-- C3 witness: the round-trip evaluated on one concrete in-range frame
(model string `"Wé"`, exercising a multi-byte UTF-8 character). -/
theorem decode_status_encode_roundtrip_witness :
    decode_status (encode_status
      { company_id := 0xABCD
        msg_seq := 5
        version := 1
        capacity := 87
        wifi_quality := 3
        key_seq := 2
        status_original := 0x20042
        jobs := 7
        fw_major := 1
        fw_minor := 2
        fw_build := 777
        model_str := [0x57, 0xE9] }) = Except.ok
      { company_id := 0xABCD
        msg_seq := 5
        version := 1
        capacity := 87
        wifi_quality := 3
        key_seq := 2
        status_original := 0x20042
        jobs := 7
        fw_major := 1
        fw_minor := 2
        fw_build := 777
        model_str := [0x57, 0xE9] } :=
  decode_status_encode_roundtrip _ (by decide) (by decide) (by decide) (by decide)
    (by decide) (by decide) (by decide) (by decide) (by decide) (by decide)
    (by decide) (by decide) (by decide)

/-- `dict.update` only appends when the new keys are fresh: updating
`base` with a map whose keys are distinct and disjoint from `base`'s is
plain concatenation. -/
theorem pyDictUpdate_append (extra : List (String × PyJson)) :
    ∀ base : List (String × PyJson),
      (extra.map Prod.fst).Nodup →
      (∀ k ∈ extra.map Prod.fst, k ∉ base.map Prod.fst) →
      pyDictUpdate base extra = base ++ extra := by
  induction extra with
  | nil =>
    intro base _ _
    simp [pyDictUpdate]
  | cons kv rest ih =>
    intro base hnd hdisj
    have hnd2 : (kv.1 :: rest.map Prod.fst).Nodup := by simpa using hnd
    have hnd3 := List.nodup_cons.mp hnd2
    have hnotin : base.any (fun p => p.1 == kv.1) = false := by
      rw [List.any_eq_false]
      intro p hp
      have hk : kv.1 ∉ base.map Prod.fst := hdisj kv.1 (by simp)
      simp only [beq_iff_eq]
      intro hEq
      exact hk (List.mem_map.mpr ⟨p, hp, hEq⟩)
    have hstep : pyDictUpdate base (kv :: rest) = pyDictUpdate (base ++ [kv]) rest := by
      simp [pyDictUpdate, List.foldl_cons, hnotin]
    rw [hstep, ih (base ++ [kv]) hnd3.2 ?_]
    · simp
    · intro k hk
      have hk2 : k ∉ base.map Prod.fst := hdisj k (by simp [hk])
      have hne : k ≠ kv.1 := by
        intro hEq
        exact hnd3.1 (hEq ▸ hk)
      simp [hk2, hne]

/-- C4: for every action code, extra-field map (fresh, distinct keys),
sequence number and key, `build_json_command` is exactly the constant
header byte, then the compact JSON of `\x7b action, ...extra \x7d`, then
the first 4 bytes of
`HMAC-SHA256(key, u16le(seq) ++ header ++ payload)`; and it is
deterministic on identical inputs. -/
theorem build_json_command_spec (action : Int) (extra : List (String × PyJson))
    (seq : Nat) (key : Option (List Nat))
    (hnd : (extra.map Prod.fst).Nodup)
    (hna : "action" ∉ extra.map Prod.fst) :
    build_json_command action extra seq key =
      [BLE_HEADER_SHORT] ++
        strUtf8 (jsonDumps (PyJson.obj (("action", PyJson.int action) :: extra))) ++
        (hmacSha256 (key.getD BLE_DEFAULT_SKEY)
          (u16le (seq % 0x10000) ++ [BLE_HEADER_SHORT] ++
            strUtf8 (jsonDumps (PyJson.obj (("action", PyJson.int action) :: extra))))).take 4 ∧
      (∀ a2 e2 s2 k2, a2 = action → e2 = extra → s2 = seq → k2 = key →
        build_json_command a2 e2 s2 k2 = build_json_command action extra seq key) := by
  constructor
  · have hupd : pyDictUpdate [("action", PyJson.int action)] extra =
        ("action", PyJson.int action) :: extra := by
      have h := pyDictUpdate_append extra [("action", PyJson.int action)] hnd
        (by intro k hk; simp; intro hEq; exact hna (hEq ▸ hk))
      simpa using h
    unfold build_json_command build_command_frame _hmac4_sha256
    rw [hupd]
    rfl
  · rintro a2 e2 s2 k2 rfl rfl rfl rfl
    rfl

/-- C4 witness: the framer layout instantiated at action 42 with one
extra field, sequence 7 and the default key. -/
theorem build_json_command_spec_witness :
    build_json_command 42 [("user", PyJson.str "bob")] 7 none =
      [BLE_HEADER_SHORT] ++
        strUtf8 (jsonDumps (PyJson.obj
          (("action", PyJson.int 42) :: [("user", PyJson.str "bob")]))) ++
        (hmacSha256 (Option.getD none BLE_DEFAULT_SKEY)
          (u16le (7 % 0x10000) ++ [BLE_HEADER_SHORT] ++
            strUtf8 (jsonDumps (PyJson.obj
              (("action", PyJson.int 42) :: [("user", PyJson.str "bob")]))))).take 4 :=
  (build_json_command_spec 42 [("user", PyJson.str "bob")] 7 none (by decide)
    (by decide)).1

/-- C5: the session manager treats a token as expiring soon exactly when
`now ≥ expiresAt − 3600`; in particular a held token whose `expiresAt` is
30 minutes in the future is not returned as valid — `async_ensure_token`
starts by attempting a refresh. -/
theorem ensure_token_expiring_soon_spec :
    (∀ (now : Int) (st : ApiClientState),
      _is_token_expiring_soon now st = true ↔ st.expires_at - 3600 ≤ now) ∧
    (∀ (now : Int) (st : ApiClientState) (store : Option TokenRecord)
        (refreshResp loginResp : Option AuthResponse) (newDeviceId : String),
      st.access_token ≠ "" → st.expires_at = now + 1800 →
      (async_ensure_token now st store refreshResp loginResp newDeviceId).2.1.head? =
        some AuthEvent.refreshAttempt) := by
  constructor
  · intro now st
    simp [_is_token_expiring_soon, REFRESH_BUFFER_SECS]
  · intro now st store rR lR nid hacc hexp
    have hb : (st.access_token == "") = false := by
      simp [hacc]
    have hexpiring : _is_token_expiring_soon now st = true := by
      simp only [_is_token_expiring_soon, REFRESH_BUFFER_SECS, hexp, decide_eq_true_eq]
      omega
    unfold async_ensure_token ensureTail
    rw [hb]
    simp only [Bool.false_eq_true, if_false, bne_self_eq_false, hexpiring]
    cases rR with
    | none =>
      cases lR with
      | none => simp [_async_refresh, async_login, hb, hacc]
      | some r => simp [_async_refresh, async_login, hb, hacc]
    | some r => simp [_async_refresh, hb, hacc]

/-- C5 witness: with `expiresAt = now + 1800` (30 minutes ahead) the very
first auth interaction is a refresh attempt. -/
theorem ensure_token_expiring_soon_spec_witness :
    (async_ensure_token 1000
      { device_id := "d", access_token := "A", refresh_token := "R", expires_at := 2800 }
      none (some { accessToken := "A2", refreshToken := "R2", expiresIn := 99999 })
      none "u").2.1.head? = some AuthEvent.refreshAttempt :=
  ensure_token_expiring_soon_spec.2 1000
    { device_id := "d", access_token := "A", refresh_token := "R", expires_at := 2800 }
    none (some { accessToken := "A2", refreshToken := "R2", expiresIn := 99999 })
    none "u" (by decide) (by norm_num)

/-- C6: loading a persisted token whose `expiresAt` is in the past (access
token non-empty) and calling `async_ensure_token` attempts a refresh
first, and performs the full login exactly when that refresh fails. -/
theorem ensure_token_refresh_before_login (now : Int) (d : TokenRecord)
    (refreshResp loginResp : Option AuthResponse) (newDeviceId : String)
    (hacc : d.access_token ≠ "") (hexp : d.expires_at < now) :
    (async_ensure_token now initialApiClientState (some d) refreshResp loginResp
        newDeviceId).2.1 =
      [AuthEvent.loadPersisted, AuthEvent.refreshAttempt] ++
        (if refreshResp.isSome then [] else [AuthEvent.loginAttempt]) := by
  have hnl : ¬(now < d.expires_at) := by linarith
  have hle : d.expires_at - REFRESH_BUFFER_SECS ≤ now := by
    simp only [REFRESH_BUFFER_SECS]
    linarith
  unfold async_ensure_token _load_persisted_tokens ensureTail
  cases refreshResp with
  | none =>
    cases loginResp with
    | none =>
      simp [initialApiClientState, _is_token_expiring_soon, _async_refresh,
        async_login, hacc, hnl, hle]
    | some r =>
      simp [initialApiClientState, _is_token_expiring_soon, _async_refresh,
        async_login, hacc, hnl, hle]
  | some r =>
    simp [initialApiClientState, _is_token_expiring_soon, _async_refresh,
      async_login, hacc, hnl, hle]

/-- C6 witness: expired persisted token plus a failing refresh yields
load, refresh, then login, in that order. -/
theorem ensure_token_refresh_before_login_witness :
    (async_ensure_token 1000 initialApiClientState
      (some { device_id := "d", access_token := "A", refresh_token := "R", expires_at := 500 })
      none (some { accessToken := "A3", refreshToken := "R3", expiresIn := 9999 })
      "u").2.1 =
      [AuthEvent.loadPersisted, AuthEvent.refreshAttempt] ++
        (if (none : Option AuthResponse).isSome then [] else [AuthEvent.loginAttempt]) :=
  ensure_token_refresh_before_login 1000
    { device_id := "d", access_token := "A", refresh_token := "R", expires_at := 500 }
    none (some { accessToken := "A3", refreshToken := "R3", expiresIn := 9999 })
    "u" (by decide) (by norm_num)

/-- C7 counterexample: after a 401 and a successful refresh, a retry
response with status 304 — a non-2xx status — is returned as a success,
because `raise_for_status` only raises for statuses ≥ 400.  So "any
non-2xx status after the single retry is surfaced as a request failure"
is false on the code. -/
theorem async_request_non2xx_success :
    (_async_request 0
      { device_id := "d", access_token := "A", refresh_token := "R", expires_at := 999999 }
      none (some { accessToken := "A2", refreshToken := "R2", expiresIn := 99999 }) none
      "u" 401 304).2.2.2 = ReqOutcome.ok 304 ∧ ¬(304 / 100 = 2) := by
  decide

/-- C7 (amended): for every authenticated request, from any starting
token state: if the first response status is 401 the client attempts
exactly one refresh (falling back to login exactly when the refresh
fails); when re-auth yields a token it reissues the request exactly once
with the new bearer token and the retry's status is surfaced through
`raise_for_status`, which fails exactly for statuses ≥ 400 (not for every
non-2xx status); if refresh and login both fail, the auth error is
surfaced without a reissue; a non-401 first response is never retried;
and if even the initial token acquisition fails, the auth error is
surfaced before any send.  `e` is the token-acquisition step the request
begins with (`async_ensure_token`). -/
theorem async_request_single_retry_spec (now : Int) (st : ApiClientState)
    (store : Option TokenRecord) (refreshResp loginResp : Option AuthResponse)
    (newDeviceId : String) (status1 status2 : Nat) :
    (let e := async_ensure_token now st store refreshResp loginResp newDeviceId
     let r := _async_request now st store refreshResp loginResp newDeviceId status1 status2
     (e.2.2 = false →
        r.2.2.1.sends = [] ∧ r.2.2.1.refreshAttempts = 0 ∧ r.2.2.1.loginAttempts = 0 ∧
          r.2.2.2 = ReqOutcome.authError) ∧
     (e.2.2 = true → status1 ≠ 401 →
        r.2.2.1.sends = [e.1.access_token] ∧ r.2.2.1.refreshAttempts = 0 ∧
          r.2.2.1.loginAttempts = 0 ∧ r.2.2.2 = raiseForStatus status1) ∧
     (e.2.2 = true → status1 = 401 →
        r.2.2.1.refreshAttempts = 1 ∧
        (∀ a, refreshResp = some a →
          r.2.2.1.loginAttempts = 0 ∧ r.2.2.1.sends = [e.1.access_token, a.accessToken] ∧
            r.2.2.2 = raiseForStatus status2) ∧
        (refreshResp = none → r.2.2.1.loginAttempts = 1 ∧
          (∀ a, loginResp = some a →
            r.2.2.1.sends = [e.1.access_token, a.accessToken] ∧
              r.2.2.2 = raiseForStatus status2) ∧
          (loginResp = none →
            r.2.2.1.sends = [e.1.access_token] ∧ r.2.2.2 = ReqOutcome.authError))) ∧
     (∀ s, raiseForStatus s = ReqOutcome.httpError s ↔ 400 ≤ s) ∧
     (∀ s, raiseForStatus s = ReqOutcome.ok s ↔ s < 400)) := by
  dsimp only
  rcases hens : async_ensure_token now st store refreshResp loginResp newDeviceId with
    ⟨st1, etrace, eok⟩
  unfold _async_request
  rw [hens]
  cases eok with
  | false =>
    dsimp only
    refine ⟨fun _ => ⟨rfl, rfl, rfl, rfl⟩, ?_, ?_, ?_, ?_⟩
    · intro h
      simp at h
    · intro h
      simp at h
    · intro s
      unfold raiseForStatus
      by_cases h : 400 ≤ s
      · simp [h]
      · simp [h]
    · intro s
      unfold raiseForStatus
      by_cases h : 400 ≤ s
      · simp [h]
      · simp [h]
        omega
  | true =>
    dsimp only
    refine ⟨?_, ?_, ?_, ?_, ?_⟩
    · intro h
      simp at h
    · intro _ hne
      have hb : (status1 == 401) = false := by simp [hne]
      simp [hb]
    · intro _ h401
      subst h401
      cases refreshResp with
      | some a =>
        simp [_async_refresh, _apply_auth_response]
      | none =>
        cases loginResp with
        | some a =>
          simp [_async_refresh, async_login, _apply_auth_response]
        | none =>
          simp [_async_refresh, async_login]
    · intro s
      unfold raiseForStatus
      by_cases h : 400 ≤ s
      · simp [h]
      · simp [h]
    · intro s
      unfold raiseForStatus
      by_cases h : 400 ≤ s
      · simp [h]
      · simp [h]
        omega

/-- C7 witness: starting cold (empty in-memory state, expired persisted
record), a 401 first response with a successful refresh makes exactly one
401-path refresh attempt and surfaces the retry status 500 through
`raise_for_status`. -/
theorem async_request_single_retry_spec_witness :
    (_async_request 0 initialApiClientState
        (some { device_id := "d", access_token := "A", refresh_token := "R", expires_at := -100 })
        (some { accessToken := "A2", refreshToken := "R2", expiresIn := 99999 }) none
        "u" 401 500).2.2.2 = raiseForStatus 500 ∧
      (_async_request 0 initialApiClientState
        (some { device_id := "d", access_token := "A", refresh_token := "R", expires_at := -100 })
        (some { accessToken := "A2", refreshToken := "R2", expiresIn := 99999 }) none
        "u" 401 500).2.2.1.refreshAttempts = 1 := by
  have h := async_request_single_retry_spec 0 initialApiClientState
    (some { device_id := "d", access_token := "A", refresh_token := "R", expires_at := -100 })
    (some { accessToken := "A2", refreshToken := "R2", expiresIn := 99999 }) none
    "u" 401 500
  have h3 := h.2.2.1 rfl rfl
  exact ⟨(h3.2.1 _ rfl).2.2, h3.1⟩

/-- Invariant of the poll loop: with positive fuel it makes between 1 and
`fuel` attempts, returns the response of its last attempt, every attempt
before the last saw `"pending"`, and if it stopped early the last
response was not `"pending"`. -/
theorem pollLoop_spec (responses : Nat → List (String × PyJson)) :
    ∀ (fuel attempts : Nat) (last : List (String × PyJson)), 0 < fuel →
      attempts + 1 ≤ (pollLoop responses fuel attempts last).1 ∧
      (pollLoop responses fuel attempts last).1 ≤ attempts + fuel ∧
      (pollLoop responses fuel attempts last).2 =
        responses ((pollLoop responses fuel attempts last).1 - 1) ∧
      (∀ i, attempts ≤ i → i + 1 < (pollLoop responses fuel attempts last).1 →
        pollPending (responses i) = true) ∧
      ((pollLoop responses fuel attempts last).1 < attempts + fuel →
        pollPending (responses ((pollLoop responses fuel attempts last).1 - 1)) = false) := by
  intro fuel
  induction fuel with
  | zero => intro attempts last h; omega
  | succ fuel ih =>
    intro attempts last _
    by_cases hb : pollPending (responses attempts) = true
    · have hstep : pollLoop responses (fuel + 1) attempts last =
          pollLoop responses fuel (attempts + 1) (responses attempts) := by
        simp [pollLoop, hb]
      rw [hstep]
      cases Nat.eq_zero_or_pos fuel with
      | inl h0 =>
        subst h0
        simp only [pollLoop]
        refine ⟨by omega, by omega, by simp, ?_, ?_⟩
        · intro i hi1 hi2
          omega
        · intro hlt
          omega
      | inr hpos =>
        obtain ⟨ih1, ih2, ih3, ih4, ih5⟩ := ih (attempts + 1) (responses attempts) hpos
        refine ⟨by omega, by omega, ih3, ?_, ?_⟩
        · intro i hi1 hi2
          rcases Nat.eq_or_lt_of_le hi1 with hEq | hlt
          · exact hEq ▸ hb
          · exact ih4 i hlt hi2
        · intro hlt
          exact ih5 (by omega)
    · have hstep : pollLoop responses (fuel + 1) attempts last =
          (attempts + 1, responses attempts) := by
        simp [pollLoop, hb]
      rw [hstep]
      refine ⟨by omega, by omega, by simp, ?_, ?_⟩
      · intro i hi1 hi2
        omega
      · intro _
        simp only [Nat.add_sub_cancel]
        simpa using hb

/-- C8: the conversion poll loop makes between 1 and
`POLL_TIMEOUT_SECS / POLL_INTERVAL_SECS = 60` attempts (one every 2
seconds under the 120-second ceiling), always returns the response of its
last attempt (on timeout the last pending response, never an error);
every earlier attempt saw `"pending"`, and stopping early means the last
status was not `"pending"`.  In particular responses pending-then-done
give exactly 2 poll calls and return the second response. -/
theorem poll_is_converted_spec :
    (∀ responses : Nat → List (String × PyJson),
      1 ≤ (async_poll_is_converted responses).1 ∧
      (async_poll_is_converted responses).1 ≤ POLL_TIMEOUT_SECS / POLL_INTERVAL_SECS ∧
      (async_poll_is_converted responses).2 =
        responses ((async_poll_is_converted responses).1 - 1) ∧
      (∀ i, i + 1 < (async_poll_is_converted responses).1 →
        pollPending (responses i) = true) ∧
      ((async_poll_is_converted responses).1 < POLL_TIMEOUT_SECS / POLL_INTERVAL_SECS →
        pollPending (responses ((async_poll_is_converted responses).1 - 1)) = false)) ∧
    (∀ responses : Nat → List (String × PyJson),
      pollPending (responses 0) = true → pollPending (responses 1) = false →
      async_poll_is_converted responses = (2, responses 1)) := by
  constructor
  · intro responses
    have he : async_poll_is_converted responses = pollLoop responses 60 0 [] := rfl
    have h := pollLoop_spec responses 60 0 [] (by omega)
    have hq : POLL_TIMEOUT_SECS / POLL_INTERVAL_SECS = 60 := rfl
    rw [he, hq]
    simpa using h
  · intro responses h0 h1
    have he : async_poll_is_converted responses = pollLoop responses 60 0 [] := rfl
    have s1 : pollLoop responses 60 0 [] = pollLoop responses 59 1 (responses 0) := by
      show pollLoop responses (59 + 1) 0 [] = _
      simp [pollLoop, h0]
    have s2 : pollLoop responses 59 1 (responses 0) = (2, responses 1) := by
      show pollLoop responses (58 + 1) 1 (responses 0) = _
      simp [pollLoop, h1]
    rw [he, s1, s2]

/-- C8 witness: the end-to-end scenario poll phase — pending then done
makes exactly 2 poll calls and returns the second response. -/
theorem poll_is_converted_spec_witness :
    async_poll_is_converted (fun i =>
      if i = 0 then [("status", PyJson.str "pending")]
      else [("status", PyJson.str "done"), ("item", PyJson.str "x")]) =
      (2, [("status", PyJson.str "done"), ("item", PyJson.str "x")]) :=
  poll_is_converted_spec.2 _ rfl rfl

/-- C9: in every signing run of `async_send_command` (an `action` was
supplied), if the most recently read status before the write reports
`secure_mode = false`, the written frame equals the frame signed with the
well-known fallback key, whatever key the caller supplied; and a key
other than the fallback is only ever used when the latest read status
reports secure mode. -/
theorem async_send_command_key_policy (raw1 raw2 rawAfter : List Nat) (a : Int)
    (extra : List (String × PyJson)) (skey : Option (List Nat)) :
    (let t := async_send_command raw1 raw2 rawAfter none (some a) extra skey
     (∀ f s, t.frame = some f → t.preReads.getLast? = some s →
        (parse_status_flags s.status_original).secure_mode = false →
        f = build_json_command a extra s.msg_seq none ∧
          t.usedKey = some BLE_DEFAULT_SKEY) ∧
     (∀ k, t.usedKey = some k → k ≠ BLE_DEFAULT_SKEY →
        ∃ s, t.preReads.getLast? = some s ∧
          (parse_status_flags s.status_original).secure_mode = true)) := by
  dsimp only
  unfold async_send_command
  cases hd1 : decode_status raw1 with
  | error e =>
    dsimp only
    constructor
    · intro f s hf hlast hsec
      simp at hf
    · intro k hk hkne
      simp at hk
  | ok s1 =>
    dsimp only
    by_cases hr1 : (parse_status_flags s1.status_original).launcher_cmd_ready
    · simp only [hr1, if_true]
      by_cases hs1 : (parse_status_flags s1.status_original).secure_mode
      · simp only [hs1, if_true]
        unfold sendCommandTail
        dsimp only
        constructor
        · intro f s hf hlast hsec
          simp only [List.getLast?_singleton, Option.some.injEq] at hlast
          rw [← hlast] at hsec
          rw [hs1] at hsec
          exact absurd hsec (by simp)
        · intro k hk hkne
          exact ⟨s1, by simp, hs1⟩
      · simp only [Bool.not_eq_true] at hs1
        simp only [hs1, Bool.false_eq_true, if_false]
        unfold sendCommandTail
        dsimp only
        constructor
        · intro f s hf hlast hsec
          simp only [Option.some.injEq] at hf
          subst hf
          simp only [List.getLast?_singleton, Option.some.injEq] at hlast
          subst hlast
          exact ⟨rfl, rfl⟩
        · intro k hk hkne
          simp only [Option.some.injEq] at hk
          exact absurd hk.symm hkne
    · simp only [Bool.not_eq_true] at hr1
      simp only [hr1, Bool.false_eq_true, if_false]
      cases hd2 : decode_status raw2 with
      | error e =>
        dsimp only
        constructor
        · intro f s hf hlast hsec
          simp at hf
        · intro k hk hkne
          simp at hk
      | ok s2 =>
        dsimp only
        by_cases hr2 : (parse_status_flags s2.status_original).launcher_cmd_ready
        · simp only [hr2, Bool.not_true, Bool.false_eq_true, if_false]
          by_cases hs2 : (parse_status_flags s2.status_original).secure_mode
          · simp only [hs2, if_true]
            unfold sendCommandTail
            dsimp only
            constructor
            · intro f s hf hlast hsec
              have hlast2 : s = s2 := by
                simpa using hlast.symm
              rw [hlast2, hs2] at hsec
              exact absurd hsec (by simp)
            · intro k hk hkne
              exact ⟨s2, by simp, hs2⟩
          · simp only [Bool.not_eq_true] at hs2
            simp only [hs2, Bool.false_eq_true, if_false]
            unfold sendCommandTail
            dsimp only
            constructor
            · intro f s hf hlast hsec
              simp only [Option.some.injEq] at hf
              subst hf
              have hlast2 : s = s2 := by
                simpa using hlast.symm
              subst hlast2
              exact ⟨rfl, rfl⟩
            · intro k hk hkne
              simp only [Option.some.injEq] at hk
              exact absurd hk.symm hkne
        · simp only [Bool.not_eq_true] at hr2
          simp only [hr2, Bool.not_false, Bool.true_eq_false, if_true]
          constructor
          · intro f s hf hlast hsec
            simp at hf
          · intro k hk hkne
            simp at hk

/-- C9 witness: a device that is ready but not in secure mode
(`status = 0x20000`) forces the fallback key even though the caller
supplied a device-specific key. -/
theorem async_send_command_key_policy_witness :
    (async_send_command
        [1, 0, 5, 0, 1, 87, 3, 2, 0, 0, 2, 0, 0, 0, 0, 0, 0, 0, 0, 0,
         87, 49, 0, 0, 0, 0, 0, 0]
        [] [] none (some 2) [] (some [0xAA, 0xBB])).usedKey =
        some BLE_DEFAULT_SKEY ∧
      (async_send_command
        [1, 0, 5, 0, 1, 87, 3, 2, 0, 0, 2, 0, 0, 0, 0, 0, 0, 0, 0, 0,
         87, 49, 0, 0, 0, 0, 0, 0]
        [] [] none (some 2) [] (some [0xAA, 0xBB])).frame =
        some (build_json_command 2 [] 5 none) := by
  have h := async_send_command_key_policy
    [1, 0, 5, 0, 1, 87, 3, 2, 0, 0, 2, 0, 0, 0, 0, 0, 0, 0, 0, 0,
     87, 49, 0, 0, 0, 0, 0, 0]
    [] [] 2 [] (some [0xAA, 0xBB])
  have h1 := h.1 (build_json_command 2 [] 5 none)
    { company_id := 1, msg_seq := 5, version := 1, capacity := 87, wifi_quality := 3,
      key_seq := 2, status_original := 131072, jobs := 0, fw_major := 0, fw_minor := 0,
      fw_build := 0, model_str := [87, 49] }
    rfl rfl (by decide)
  exact ⟨h1.2, rfl⟩

/-- C2 witness: the empty payload fails as malformed; a 28-byte zero
payload decodes successfully. -/
theorem decode_status_length_iff_witness :
    decode_status [] = Except.error BleError.malformedFrame ∧
      (∃ f, decode_status (List.replicate 28 0) = Except.ok f) := by
  have h1 := (decode_status_length_iff []).1
  have h2 := (decode_status_length_iff (List.replicate 28 0)).2
  exact ⟨h1.mpr (by decide), h2.mpr (by decide)⟩

/-- The embedded SHA-256 reproduces the standard `"abc"` test vector. -/
theorem sha256_vector_abc :
    sha256 [0x61, 0x62, 0x63] =
      [0xba, 0x78, 0x16, 0xbf, 0x8f, 0x01, 0xcf, 0xea, 0x41, 0x41, 0x40, 0xde,
       0x5d, 0xae, 0x22, 0x23, 0xb0, 0x03, 0x61, 0xa3, 0x96, 0x17, 0x7a, 0x9c,
       0xb4, 0x10, 0xff, 0x61, 0xf2, 0x00, 0x15, 0xad] := by
  decide

/-- The embedded HMAC-SHA256 reproduces the RFC 2202-style test vector
for key `"key"` and the quick-brown-fox message (first 4 bytes, the MAC
width used by the command framer). -/
theorem hmacSha256_vector :
    (hmacSha256 [0x6b, 0x65, 0x79]
      ("The quick brown fox jumps over the lazy dog".toList.map Char.toNat)).take 4 =
      [0xf7, 0xbc, 0x83, 0xf4] := by
  decide
